import Mathlib

/-!
Shallow embedding of the Presence-Tracker repository (Python) in Lean 4.

The embedding follows `src/presence_tracker.py` and `src/bluetooth_scanner.py`.
Time values (both wall-clock and monotonic) are modelled as rationals.
External collaborators (the Convex store transport, the D-Bus link layer,
the bluetoothctl subprocess and the clocks) are passed in explicitly as
oracle parameters; all state that the Python module keeps in module-level
dictionaries is passed and returned explicitly.
-/

namespace PresenceTracker

/-! ## Configuration constants (defaults from the source) -/

/-- MAX_CONVEX_CONSECUTIVE_TIMEOUTS, default 3 (presence_tracker.py). -/
def MAX_CONVEX_CONSECUTIVE_TIMEOUTS : Nat := 3

/-- CONVEX_CIRCUIT_OPEN_SECONDS, default 30.0 (presence_tracker.py). -/
def CONVEX_CIRCUIT_OPEN_SECONDS : ℚ := 30

/-- FIRST_SEEN_DEBOUNCE_SECONDS, default 10 (presence_tracker.py). -/
def FIRST_SEEN_DEBOUNCE_SECONDS : ℚ := 10

/-- PROBE_BACKOFF_BASE_SECONDS, default 5.0 (bluetooth_scanner.py). -/
def PROBE_BACKOFF_BASE_SECONDS : ℚ := 5

/-- PROBE_BACKOFF_MAX_SECONDS, default 300.0 (bluetooth_scanner.py). -/
def PROBE_BACKOFF_MAX_SECONDS : ℚ := 300

/-- RSSI_FRESHNESS_SECONDS, default 15 (bluetooth_scanner.py). -/
def RSSI_FRESHNESS_SECONDS : ℚ := 15

/-- MAX_RECONNECT_PER_CYCLE, default 4 (bluetooth_scanner.py). -/
def MAX_RECONNECT_PER_CYCLE : Nat := 4

/-! ## Upstream sync client with circuit breaker (`_submit_convex_call`) -/

/-- Outcome of waiting on the future returned by the executor:
`future.result(timeout=...)` either returns a value, raises TimeoutError,
or raises some other exception. -/
inductive CallOutcome (T : Type) where
  | success (t : T)
  | timeout
  | failure
  deriving DecidableEq

/-- The module-level circuit breaker state of presence_tracker.py:
`_convex_consecutive_timeouts` and `_convex_circuit_open_until`. -/
structure ConvexState where
  consecutiveTimeouts : Nat
  circuitOpenUntil : ℚ
  deriving DecidableEq

/-- Result of one `_submit_convex_call` invocation: the returned value
(`None` modelled as `none`), the updated module state, and whether `fn`
was submitted to the executor at all. -/
structure SubmitResult (T : Type) where
  ret : Option T
  state : ConvexState
  invoked : Bool

/-- `_submit_convex_call` (presence_tracker.py lines 134-183).
`now` is the `time.monotonic()` reading taken on entry; `nowAfter` is the
`time.monotonic()` reading taken at the point where the circuit is opened
(the code re-reads the clock there, so `now ≤ nowAfter` in any real run).
The body of `fn` is abstracted by `outcome`. -/
def submit_convex_call {T : Type} (st : ConvexState) (now nowAfter : ℚ)
    (outcome : CallOutcome T) : SubmitResult T :=
  if now < st.circuitOpenUntil then
    { ret := none, state := st, invoked := false }
  else
    match outcome with
    | .success t =>
        { ret := some t
          state := { st with consecutiveTimeouts := 0 }
          invoked := true }
    | .timeout =>
        let n := st.consecutiveTimeouts + 1
        if MAX_CONVEX_CONSECUTIVE_TIMEOUTS ≤ n then
          { ret := none
            state :=
              { consecutiveTimeouts := n
                circuitOpenUntil := nowAfter + CONVEX_CIRCUIT_OPEN_SECONDS }
            invoked := true }
        else
          { ret := none
            state := { st with consecutiveTimeouts := n }
            invoked := true }
    | .failure =>
        { ret := none
          state := { st with consecutiveTimeouts := 0 }
          invoked := true }

/-! ## Link-layer device snapshot (`get_device_snapshot`) -/

/-- One entry of the snapshot built by `get_device_snapshot`
(bluetooth_scanner.py lines 179-208): the per-device dictionary.
The `path` field is always set to the D-Bus object path. -/
structure DeviceInfo where
  path : String
  address : String
  name : Option String
  aliasName : Option String
  connected : Bool
  paired : Bool
  trusted : Bool
  rssi : Option Int
  tx_power : Option Int
  deriving DecidableEq

/-- A snapshot: the Python dict keyed by normalized (uppercase) MAC,
modelled as an association list (keys are unique in a real snapshot). -/
abbrev Snapshot := List (String × DeviceInfo)

/-- `snapshot.get(mac)`: association-list lookup. -/
def snapshotGet (snapshot : Snapshot) (mac : String) : Option DeviceInfo :=
  (snapshot.find? (fun p => p.1 = mac)).map (·.2)

/-- Python's `str.upper()` as used by `_normalize_mac` and the
`mac_address.upper()` call sites: uppercase every character. -/
def pyUpper (s : String) : String := String.mk (s.data.map Char.toUpper)

/-- `_get_device_path` (bluetooth_scanner.py lines 329-334): look up the
uppercased address and return its object path. -/
def get_device_path (mac : String) (snapshot : Snapshot) : Option String :=
  (snapshotGet snapshot (pyUpper mac)).map (·.path)

/-- `is_device_trusted` (bluetooth_scanner.py lines 365-383). -/
def is_device_trusted (mac : String) (snapshot : Snapshot) : Bool :=
  match snapshotGet snapshot (pyUpper mac) with
  | none => false
  | some d => d.trusted

/-- `get_paired_devices` (bluetooth_scanner.py lines 756-768). -/
def get_paired_devices (snapshot : Snapshot) : List String :=
  (snapshot.filter (fun p => p.2.paired)).map (·.1)

/-- `get_all_connected_devices` (bluetooth_scanner.py lines 309-326). -/
def get_all_connected_devices (snapshot : Snapshot) : List String :=
  (snapshot.filter (fun p => p.2.connected)).map (·.1)

/-! ## Outcome verification (`_verify_connected_state`) -/

/-- The local `max_attempts = 3` of `_verify_connected_state`. -/
def verifyMaxAttempts : Nat := 3

/-- The local `base_delay = 0.2` (200 ms) of `_verify_connected_state`. -/
def verifyBaseDelay : ℚ := 1/5

/-- Result of the retry loop in `_verify_connected_state`: either an early
`return True` after a matching read, or falling through all attempts.
Both record how many property reads were performed and which sleeps ran. -/
inductive VerifyOutcome where
  | earlyTrue (readsUsed : Nat) (sleeps : List ℚ)
  | fellThrough (readsUsed : Nat) (sleeps : List ℚ)
  deriving DecidableEq

/-- The `for attempt in range(max_attempts)` loop of `_verify_connected_state`
(bluetooth_scanner.py lines 505-535). `reads n` is the result of the n-th
`_read_connected_property` call (`none` models a failed read). -/
def verifyGo (reads : Nat → Option Bool) (expect : Bool) :
    Nat → Nat → List ℚ → VerifyOutcome
  | attempt, 0, sleeps => .fellThrough attempt sleeps
  | attempt, remaining + 1, sleeps =>
    match reads attempt with
    | none =>
        let sleeps' :=
          if attempt < verifyMaxAttempts - 1 then
            sleeps ++ [verifyBaseDelay * 2 ^ attempt]
          else sleeps
        verifyGo reads expect (attempt + 1) remaining sleeps'
    | some connected =>
        let stateMatches := if expect then connected else !connected
        if stateMatches then .earlyTrue (attempt + 1) sleeps
        else
          let sleeps' :=
            if attempt < verifyMaxAttempts - 1 then
              sleeps ++ [verifyBaseDelay * 2 ^ attempt]
            else sleeps
          verifyGo reads expect (attempt + 1) remaining sleeps'

/-- Full result of `_verify_connected_state`, with instrumentation of how
many live reads ran, which sleeps ran, and whether the snapshot fallback
was consulted. -/
structure VerifyResult where
  result : Bool
  readsUsed : Nat
  sleeps : List ℚ
  usedSnapshot : Bool
  deriving DecidableEq

/-- `_verify_connected_state` (bluetooth_scanner.py lines 497-547).
`snapshotConnected` is the value `check_device_connected` would report
from a fresh snapshot in the final fallback. -/
def verify_connected_state (reads : Nat → Option Bool) (snapshotConnected : Bool)
    (expect : Bool) : VerifyResult :=
  match verifyGo reads expect 0 verifyMaxAttempts [] with
  | .earlyTrue n s => { result := true, readsUsed := n, sleeps := s, usedSnapshot := false }
  | .fellThrough n s =>
      { result := if expect then snapshotConnected else !snapshotConnected
        readsUsed := n
        sleeps := s
        usedSnapshot := true }

/-! ## Probe failure backoff (`_record_probe_failure`, `_reset_probe_failure`) -/

/-- The two module-level dictionaries `_failed_connection_attempts` and
`_next_probe_allowed_at` of bluetooth_scanner.py, modelled as maps from
address to an optional entry (absent key = `none`). -/
structure ProbeBackoffState where
  failed_connection_attempts : String → Option Nat
  next_probe_allowed_at : String → Option ℚ

/-- The backoff expression `min(base * 2 ** (failures - 1), cap)` from
`_record_probe_failure` (bluetooth_scanner.py lines 555-558). -/
def probeBackoffDelay (failures : Nat) : ℚ :=
  min (PROBE_BACKOFF_BASE_SECONDS * 2 ^ (failures - 1)) PROBE_BACKOFF_MAX_SECONDS

/-- `_record_probe_failure` (bluetooth_scanner.py lines 550-565).
`now` is the `time.monotonic()` reading. -/
def record_probe_failure (st : ProbeBackoffState) (mac : String) (now : ℚ) :
    ProbeBackoffState :=
  let failures := (st.failed_connection_attempts mac).getD 0 + 1
  let failed' := Function.update st.failed_connection_attempts mac (some failures)
  if failures = 0 then
    { failed_connection_attempts := failed'
      next_probe_allowed_at := st.next_probe_allowed_at }
  else
    { failed_connection_attempts := failed'
      next_probe_allowed_at :=
        Function.update st.next_probe_allowed_at mac
          (some (now + probeBackoffDelay failures)) }

/-- `_reset_probe_failure` (bluetooth_scanner.py lines 568-572): both
entries for the address are deleted. -/
def reset_probe_failure (st : ProbeBackoffState) (mac : String) :
    ProbeBackoffState :=
  { failed_connection_attempts := Function.update st.failed_connection_attempts mac none
    next_probe_allowed_at := Function.update st.next_probe_allowed_at mac none }

/-! ## Connection controller (`connect_device`) -/

/-- Result of one `connect_device` call, with instrumentation of which
execution paths were attempted and the updated backoff state. -/
structure ConnectOutcome where
  result : Bool
  trustAttempted : Bool
  dbusConnectAttempted : Bool
  btctlConnectAttempted : Bool
  backoff : ProbeBackoffState

/-- `connect_device` (bluetooth_scanner.py lines 575-655).
The D-Bus connect call and the bluetoothctl fallback are abstracted by the
`dbusOk` oracle (whether `_invoke_with_hard_timeout` reported success);
the verification property reads are the `reads` oracle and the snapshot
fallback value is `fallbackConnected`, exactly as in
`_verify_connected_state`. `now` is the monotonic clock reading used when
a failure is recorded. -/
def connect_device (snapshot : Snapshot) (mac : String) (dbusOk : Bool)
    (reads : Nat → Option Bool) (fallbackConnected : Bool)
    (st : ProbeBackoffState) (now : ℚ) : ConnectOutcome :=
  let trustAttempted := !is_device_trusted mac snapshot
  match get_device_path mac snapshot with
  | none =>
      { result := false
        trustAttempted := trustAttempted
        dbusConnectAttempted := false
        btctlConnectAttempted := false
        backoff := st }
  | some _path =>
      let btctlAttempted := !dbusOk
      let verified := (verify_connected_state reads fallbackConnected true).result
      if verified then
        { result := true
          trustAttempted := trustAttempted
          dbusConnectAttempted := true
          btctlConnectAttempted := btctlAttempted
          backoff := reset_probe_failure st mac }
      else
        { result := false
          trustAttempted := trustAttempted
          dbusConnectAttempted := true
          btctlConnectAttempted := btctlAttempted
          backoff := record_probe_failure st mac now }

/-! ## Probe scheduler (`probe_devices`, `_pick_reconnect_candidates`) -/

/-- The sort key of `_pick_reconnect_candidates`:
`_last_connection_attempts.get(mac, 0)` (never-attempted devices get 0). -/
def lastAttemptKey (lastAttempts : String → Option ℚ) (mac : String) : ℚ :=
  (lastAttempts mac).getD 0

/-- `_pick_reconnect_candidates` (bluetooth_scanner.py lines 839-851):
sort by oldest attempt first and cap; a non-positive cap returns the
candidates unsorted (the cap is a Nat here, so non-positive means 0). -/
def pick_reconnect_candidates (lastAttempts : String → Option ℚ)
    (candidates : List String) (max_count : Nat) : List String :=
  if max_count = 0 then candidates
  else
    (candidates.mergeSort (fun a b =>
      decide (lastAttemptKey lastAttempts a ≤ lastAttemptKey lastAttempts b))).take
      max_count

/-- The module state and collaborator oracles consumed by `probe_devices`:
the `_last_connection_attempts` map, the cooldown/backoff gate
`_can_attempt_reconnection`, the outcome of `_probe_single_device`, and
`elapsed i`, the monotonic time already spent when the budget is checked
at the i-th loop iteration. -/
structure ProbeEnv where
  lastAttempts : String → Option ℚ
  canAttempt : String → Bool
  probeOutcome : String → Bool
  elapsed : Nat → ℚ

/-- The serial probe loop of `probe_devices`
(bluetooth_scanner.py lines 938-947): stop on budget exhaustion, skip
devices still cooling down, record one result per probed device. -/
def probeLoop (env : ProbeEnv) (time_budget_seconds : Option ℚ) :
    List String → Nat → List (String × Bool)
  | [], _ => []
  | mac :: rest, i =>
    if (match time_budget_seconds with
        | none => false
        | some b => decide (b ≤ env.elapsed i)) then []
    else if !env.canAttempt mac then
      probeLoop env time_budget_seconds rest (i + 1)
    else
      (mac, env.probeOutcome mac) :: probeLoop env time_budget_seconds rest (i + 1)

/-- The local `candidate_set` of `probe_devices`
(bluetooth_scanner.py lines 917-919): normalized input addresses minus the
normalized already-connected addresses (subtracting the empty connected
set is a no-op in the source, so the unconditional filter is equivalent). -/
def candidate_set (mac_addresses connected_macs : List String) : List String :=
  ((mac_addresses.map pyUpper).dedup).filter
    (fun m => decide (m ∉ connected_macs.map pyUpper))

/-- The local `max_candidates` of `probe_devices`
(bluetooth_scanner.py line 924). -/
def max_candidates : Nat :=
  if 0 < MAX_RECONNECT_PER_CYCLE then MAX_RECONNECT_PER_CYCLE else 0

/-- The local `ordered_candidates` of `probe_devices`
(bluetooth_scanner.py line 925). -/
def ordered_candidates (env : ProbeEnv)
    (mac_addresses connected_macs : List String) : List String :=
  pick_reconnect_candidates env.lastAttempts
    (candidate_set mac_addresses connected_macs) max_candidates

/-- `probe_devices` (bluetooth_scanner.py lines 890-956), returning the
results dictionary as an association list in insertion order. -/
def probe_devices (env : ProbeEnv) (mac_addresses : List String)
    (connected_macs : List String) (time_budget_seconds : Option ℚ) :
    List (String × Bool) :=
  if mac_addresses.isEmpty then []
  else if (candidate_set mac_addresses connected_macs).isEmpty then []
  else if (ordered_candidates env mac_addresses connected_macs).isEmpty then []
  else
    probeLoop env time_budget_seconds
      (ordered_candidates env mac_addresses connected_macs) 0

/-! ## Store records and cycle logic (presence_tracker.py) -/

/-- A device record returned by the Convex `devices:getDevices` query.
Fields the tracker reads; every `.get` access can be absent, hence Option.
`pendingRegistration` is read with Python truthiness, modelled as Bool. -/
structure KnownDevice where
  macAddress : Option String
  name : Option String
  status : Option String
  pendingRegistration : Bool
  firstName : Option String
  lastName : Option String
  connectedSince : Option ℚ
  deriving DecidableEq

/-- Python truthiness of `device.get("macAddress")`: both a missing key and
the empty string are falsy. -/
def KnownDevice.macTruthy (d : KnownDevice) : Option String :=
  match d.macAddress with
  | none => none
  | some m => if m = "" then none else some m

/-- `get_known_devices` (presence_tracker.py lines 192-207): query the store
through `_submit_convex_call` and map a `None` result to the empty list. -/
def get_known_devices (st : ConvexState) (now nowAfter : ℚ)
    (outcome : CallOutcome (List KnownDevice)) : List KnownDevice × ConvexState :=
  let r := submit_convex_call st now nowAfter outcome
  match r.ret with
  | none => ([], r.state)
  | some result => (result, r.state)

/-- `cleanup_stale_bluetooth_pairings` (presence_tracker.py lines 316-360),
returning the list of addresses whose pairing removal is attempted.
When no devices were retrieved from Convex the cleanup is skipped. -/
def cleanup_stale_bluetooth_pairings (convex_devices : List KnownDevice)
    (snapshot : Snapshot) : List String :=
  let paired_set := get_paired_devices snapshot
  let connected_set := get_all_connected_devices snapshot
  if convex_devices.isEmpty then []
  else
    let convex_macs := convex_devices.filterMap KnownDevice.macTruthy
    paired_set.filter (fun m => decide (m ∉ convex_macs) && decide (m ∉ connected_set))

/-- `devices_by_mac.get(mac)`: the dict comprehension of
check_and_update_devices lines 587-591 keeps, for each truthy address, the
last record carrying it. -/
def devicesByMacGet (devices : List KnownDevice) (mac : String) : Option KnownDevice :=
  (devices.filter (fun d => decide (d.macTruthy = some mac))).getLast?

/-- Result of one `update_device_status` call: the boolean return value,
whether the `updateDeviceStatus` mutation was submitted to the store
wrapper, whether attendance was logged, and the updated
`device_previous_status` map. -/
structure UpdateStatusResult where
  ok : Bool
  issuedUpdate : Bool
  loggedAttendance : Bool
  prev : String → Option String

/-- `update_device_status` (presence_tracker.py lines 404-458).
`mutationOk` abstracts whether `_submit_convex_call` returned a non-None
result for the `updateDeviceStatus` mutation. The caller always passes a
device cache; its lookup models `device_cache.get(mac_address)` (when the
cache dict is empty the source falls back to a fresh store query, which
only affects the attendance-logging flag). -/
def update_device_status (mac : String) (is_connected : Bool)
    (current_status : Option String) (device_cache : List KnownDevice)
    (prev : String → Option String) (mutationOk : Bool) : UpdateStatusResult :=
  let new_status := if is_connected then "present" else "absent"
  let previous_status :=
    match current_status with
    | some s => some s
    | none => prev mac
  if previous_status = some new_status then
    { ok := true
      issuedUpdate := false
      loggedAttendance := false
      prev := Function.update prev mac (some new_status) }
  else if mutationOk = false then
    { ok := false, issuedUpdate := true, loggedAttendance := false, prev := prev }
  else
    let device := devicesByMacGet device_cache mac
    let logs :=
      match device with
      | some d => !d.pendingRegistration
      | none => false
    { ok := true
      issuedUpdate := true
      loggedAttendance := logs
      prev := Function.update prev mac (some new_status) }

/-! ## In-range computation and debounced registration -/

/-- `_device_has_presence_signal` (bluetooth_scanner.py lines 167-172). -/
def device_has_presence_signal (device_info : DeviceInfo) (rssi_fresh : Bool) : Bool :=
  if device_info.connected then true
  else if !rssi_fresh then false
  else device_info.rssi.isSome || device_info.tx_power.isSome

/-- `_is_rssi_fresh` (bluetooth_scanner.py lines 175-176); `lastRefresh` is
the module-level `_last_rssi_refresh_time`. -/
def is_rssi_fresh (lastRefresh now : ℚ) : Bool :=
  decide (now - lastRefresh ≤ RSSI_FRESHNESS_SECONDS)

/-- `get_devices_in_range` (bluetooth_scanner.py lines 972-976), as the
list of snapshot keys with a presence signal. -/
def get_devices_in_range (snapshot : Snapshot) (lastRefresh now : ℚ) : List String :=
  (snapshot.filter
    (fun p => device_has_presence_signal p.2 (is_rssi_fresh lastRefresh now))).map (·.1)

/-- `_should_register_device` (presence_tracker.py lines 461-509): the
registration decision together with the updated `device_first_seen` map. -/
def should_register_device (firstSeen : String → Option ℚ) (mac : String)
    (device_info : DeviceInfo) (now : ℚ) : Bool × (String → Option ℚ) :=
  if !(device_info.paired || device_info.connected || device_info.trusted) then
    (false, firstSeen)
  else
    let has_presence := device_info.connected || device_info.rssi.isSome ||
      device_info.tx_power.isSome
    if !has_presence then (false, firstSeen)
    else
      match firstSeen mac with
      | none => (false, Function.update firstSeen mac (some now))
      | some first_seen =>
        if now - first_seen < FIRST_SEEN_DEBOUNCE_SECONDS then (false, firstSeen)
        else (true, firstSeen)

/-- The iteration of `_find_registration_candidates`
(presence_tracker.py lines 512-544) over the in-range addresses. -/
def candidates_go (snapshot : Snapshot) (connected_set : List String) (now : ℚ) :
    List String → (String → Option ℚ) →
      List (String × DeviceInfo) × (String → Option ℚ)
  | [], firstSeen => ([], firstSeen)
  | mac :: rest, firstSeen =>
    if mac ∈ connected_set then
      candidates_go snapshot connected_set now rest firstSeen
    else
      match snapshotGet snapshot mac with
      | none => candidates_go snapshot connected_set now rest firstSeen
      | some device_info =>
        let sr := should_register_device firstSeen mac device_info now
        let rr := candidates_go snapshot connected_set now rest sr.2
        (if sr.1 then (mac, device_info) :: rr.1 else rr.1, rr.2)

/-- `_find_registration_candidates` (presence_tracker.py lines 512-544). -/
def find_registration_candidates (snapshot : Snapshot) (connected_set : List String)
    (firstSeen : String → Option ℚ) (lastRefresh now : ℚ) :
    List (String × DeviceInfo) × (String → Option ℚ) :=
  candidates_go snapshot connected_set now
    (get_devices_in_range snapshot lastRefresh now) firstSeen

/-- Result of the in-range registration loop: the addresses for which
`register_new_device` was invoked, the `device_first_seen` map, and the
`failed_registrations` set. -/
structure InRangeRegResult where
  calls : List String
  firstSeen : String → Option ℚ
  failed_registrations : List String

/-- The second registration loop of `check_and_update_devices`
(presence_tracker.py lines 724-748), walking the candidate list.
`cache` is `devices_by_mac`; `registerOk mac` abstracts whether
`register_new_device` returned True for that address. -/
def in_range_registration_go (cache : List KnownDevice) (registerOk : String → Bool) :
    List (String × DeviceInfo) → (String → Option ℚ) → List String → InRangeRegResult
  | [], firstSeen, failed =>
      { calls := [], firstSeen := firstSeen, failed_registrations := failed }
  | (mac, _device_info) :: rest, firstSeen, failed =>
    match devicesByMacGet cache mac with
    | some _device =>
        in_range_registration_go cache registerOk rest
          (Function.update firstSeen mac none) failed
    | none =>
        if registerOk mac then
          let r := in_range_registration_go cache registerOk rest
            (Function.update firstSeen mac none)
            (failed.filter (fun x => decide (x ≠ mac)))
          { calls := mac :: r.calls
            firstSeen := r.firstSeen
            failed_registrations := r.failed_registrations }
        else
          let r := in_range_registration_go cache registerOk rest firstSeen
            (if mac ∈ failed then failed else mac :: failed)
          { calls := mac :: r.calls
            firstSeen := r.firstSeen
            failed_registrations := r.failed_registrations }

/-- One cycle of the in-range (debounced) registration path: candidate
computation followed by the registration loop. -/
def cycle_in_range_registration (snapshot : Snapshot) (connected_set : List String)
    (cache : List KnownDevice) (firstSeen : String → Option ℚ)
    (failed : List String) (registerOk : String → Bool) (lastRefresh now : ℚ) :
    InRangeRegResult :=
  let fc := find_registration_candidates snapshot connected_set firstSeen lastRefresh now
  in_range_registration_go cache registerOk fc.1 fc.2 failed

/-- Accumulated result of the known-device status loop: one event per
processed record (address, whether the updateDeviceStatus mutation was
issued), the final `device_previous_status` map, and `updated_count`. -/
structure StatusPassResult where
  events : List (String × Bool)
  prev : String → Option String
  updated_count : Nat

/-- The per-known-device status loop of `check_and_update_devices`
(presence_tracker.py lines 751-783). `present_set` is the presence set
computed earlier in the cycle, `cache` is `devices_by_mac`, `mutationOk`
abstracts store availability per address. -/
def check_status_pass (present_set : List String) (cache : List KnownDevice)
    (mutationOk : String → Bool) :
    List KnownDevice → (String → Option String) → StatusPassResult
  | [], prev => { events := [], prev := prev, updated_count := 0 }
  | d :: rest, prev =>
    match d.macTruthy with
    | none => check_status_pass present_set cache mutationOk rest prev
    | some mac =>
      let current_status := d.status.getD "unknown"
      let is_present := decide (mac ∈ present_set)
      let new_status := if is_present then "present" else "absent"
      if new_status ≠ current_status then
        let r := update_device_status mac is_present (some current_status) cache prev
          (mutationOk mac)
        let rr := check_status_pass present_set cache mutationOk rest r.prev
        { events := (mac, r.issuedUpdate) :: rr.events
          prev := rr.prev
          updated_count := (if r.ok then 1 else 0) + rr.updated_count }
      else
        let rr := check_status_pass present_set cache mutationOk rest
          (Function.update prev mac (some new_status))
        { events := (mac, false) :: rr.events
          prev := rr.prev
          updated_count := rr.updated_count }

end PresenceTracker

namespace PresenceTracker

/-- C1: while the circuit is open the wrapper short-circuits: `None` is
returned and the wrapped function is never submitted nor invoked. -/
theorem claim_c1_circuit_open_short_circuits {T : Type} (st : ConvexState)
    (now nowAfter : ℚ) (outcome : CallOutcome T)
    (hopen : now < st.circuitOpenUntil) :
    (submit_convex_call st now nowAfter outcome).ret = none ∧
      (submit_convex_call st now nowAfter outcome).invoked = false ∧
      (submit_convex_call st now nowAfter outcome).state = st := by
  simp [submit_convex_call, hopen]

/-- Witness for C1 at a concrete input: circuit open until 10, call at 4. -/
theorem claim_c1_witness :
    ((4 : ℚ) < (⟨0, 10⟩ : ConvexState).circuitOpenUntil) ∧
      (submit_convex_call (T := Nat) ⟨0, 10⟩ 4 5 (.success 7)).ret = none ∧
      (submit_convex_call (T := Nat) ⟨0, 10⟩ 4 5 (.success 7)).invoked = false ∧
      (submit_convex_call (T := Nat) ⟨0, 10⟩ 4 5 (.success 7)).state = ⟨0, 10⟩ :=
  ⟨by norm_num, claim_c1_circuit_open_short_circuits ⟨0, 10⟩ 4 5 (.success 7) (by norm_num)⟩

/-- C7: with the circuit closed, a timeout increments the consecutive-timeout
counter by one and opens the circuit (open-until = clock reading at that point
plus the open duration) exactly when the counter reaches the threshold, while
a success or a non-timeout error resets the counter to zero, leaves the
open-until timestamp unchanged, and returns without opening the circuit. -/
theorem claim_c7_counter_and_opening {T : Type} (st : ConvexState)
    (now nowAfter : ℚ) (outcome : CallOutcome T)
    (hclosed : ¬ now < st.circuitOpenUntil) :
    (outcome = .timeout →
      (submit_convex_call st now nowAfter outcome).state.consecutiveTimeouts =
          st.consecutiveTimeouts + 1 ∧
        (MAX_CONVEX_CONSECUTIVE_TIMEOUTS ≤ st.consecutiveTimeouts + 1 →
          (submit_convex_call st now nowAfter outcome).state.circuitOpenUntil =
            nowAfter + CONVEX_CIRCUIT_OPEN_SECONDS) ∧
        (st.consecutiveTimeouts + 1 < MAX_CONVEX_CONSECUTIVE_TIMEOUTS →
          (submit_convex_call st now nowAfter outcome).state.circuitOpenUntil =
            st.circuitOpenUntil)) ∧
      (∀ t, outcome = .success t →
        (submit_convex_call st now nowAfter outcome).state.consecutiveTimeouts = 0 ∧
          (submit_convex_call st now nowAfter outcome).state.circuitOpenUntil =
            st.circuitOpenUntil) ∧
      (outcome = .failure →
        (submit_convex_call st now nowAfter outcome).state.consecutiveTimeouts = 0 ∧
          (submit_convex_call st now nowAfter outcome).state.circuitOpenUntil =
            st.circuitOpenUntil) := by
  refine ⟨fun hout => ?_, fun t hout => ?_, fun hout => ?_⟩ <;> subst hout
  · by_cases h : MAX_CONVEX_CONSECUTIVE_TIMEOUTS ≤ st.consecutiveTimeouts + 1 <;>
      simp [submit_convex_call, hclosed, h]
  · simp [submit_convex_call, hclosed]
  · simp [submit_convex_call, hclosed]

/-- C6: outcome verification performs at most 3 live property reads, sleeps
between attempts following the 200 ms base doubling schedule, returns true
early only when a read matched the expectation, and consults the snapshot
fallback (comparing it against the expected state) only after all 3 reads
ran without a match. -/
theorem claim_c6_verify_retries (reads : Nat → Option Bool) (snap expect : Bool) :
    (verify_connected_state reads snap expect).readsUsed ≤ 3 ∧
      (verify_connected_state reads snap expect).sleeps =
        [verifyBaseDelay, verifyBaseDelay * 2].take
          (verify_connected_state reads snap expect).sleeps.length ∧
      (verify_connected_state reads snap expect).sleeps.length ≤ 2 ∧
      ((verify_connected_state reads snap expect).usedSnapshot = true →
        (verify_connected_state reads snap expect).readsUsed = 3 ∧
          (verify_connected_state reads snap expect).result =
            (if expect then snap else !snap)) ∧
      ((verify_connected_state reads snap expect).usedSnapshot = false →
        (verify_connected_state reads snap expect).result = true) := by
  rcases h0 : reads 0 with _ | b0 <;> rcases h1 : reads 1 with _ | b1 <;>
    rcases h2 : reads 2 with _ | b2 <;> cases expect <;>
    (try cases b0) <;> (try cases b1) <;> (try cases b2) <;>
    simp [verify_connected_state, verifyGo, verifyMaxAttempts, verifyBaseDelay,
      h0, h1, h2]

/-- Witness for C6: all three reads fail, expectation `connected`, snapshot
says connected, so the fallback returns true after three reads. -/
theorem claim_c6_witness :
    (verify_connected_state (fun _ => none) true true).readsUsed ≤ 3 ∧
      (verify_connected_state (fun _ => none) true true).sleeps =
        [verifyBaseDelay, verifyBaseDelay * 2].take
          (verify_connected_state (fun _ => none) true true).sleeps.length ∧
      (verify_connected_state (fun _ => none) true true).sleeps.length ≤ 2 ∧
      ((verify_connected_state (fun _ => none) true true).usedSnapshot = true →
        (verify_connected_state (fun _ => none) true true).readsUsed = 3 ∧
          (verify_connected_state (fun _ => none) true true).result =
            (if true then true else !true)) ∧
      ((verify_connected_state (fun _ => none) true true).usedSnapshot = false →
        (verify_connected_state (fun _ => none) true true).result = true) :=
  claim_c6_verify_retries (fun _ => none) true true

/-- C2: on a verified connect failure the per-address failure count rises by
exactly one and the next-allowed-attempt time becomes
now + min(base * 2 ^ (failures - 1), cap); the backoff delay is monotone in
the failure count and capped; a verified connect success deletes both the
failure count and the backoff entry. -/
theorem claim_c2_backoff_failure_and_reset (snapshot : Snapshot) (mac : String)
    (dbusOk : Bool) (reads : Nat → Option Bool) (fallbackConnected : Bool)
    (st : ProbeBackoffState) (now : ℚ) (f g : Nat)
    (hpath : get_device_path mac snapshot ≠ none) (hfg : f ≤ g) :
    (((verify_connected_state reads fallbackConnected true).result = false →
        (connect_device snapshot mac dbusOk reads fallbackConnected st now).backoff.failed_connection_attempts
            mac = some ((st.failed_connection_attempts mac).getD 0 + 1) ∧
          (connect_device snapshot mac dbusOk reads fallbackConnected st now).backoff.next_probe_allowed_at
              mac =
            some (now + min
              (PROBE_BACKOFF_BASE_SECONDS *
                2 ^ ((st.failed_connection_attempts mac).getD 0 + 1 - 1))
              PROBE_BACKOFF_MAX_SECONDS)) ∧
      ((verify_connected_state reads fallbackConnected true).result = true →
        (connect_device snapshot mac dbusOk reads fallbackConnected st now).backoff.failed_connection_attempts
            mac = none ∧
          (connect_device snapshot mac dbusOk reads fallbackConnected st now).backoff.next_probe_allowed_at
            mac = none)) ∧
      probeBackoffDelay f ≤ probeBackoffDelay g ∧
      probeBackoffDelay f ≤ PROBE_BACKOFF_MAX_SECONDS := by
  rcases hp : get_device_path mac snapshot with _ | p
  · exact absurd hp hpath
  · constructor
    · constructor
      · intro hv
        simp [connect_device, hp, hv, record_probe_failure, probeBackoffDelay,
          Function.update_same]
      · intro hv
        simp [connect_device, hp, hv, reset_probe_failure, Function.update_same]
    · constructor
      · unfold probeBackoffDelay
        refine min_le_min ?_ le_rfl
        have h2 : (2:ℚ) ^ (f - 1) ≤ 2 ^ (g - 1) :=
          pow_le_pow_right₀ (by norm_num) (Nat.sub_le_sub_right hfg 1)
        have hbase : (0:ℚ) ≤ PROBE_BACKOFF_BASE_SECONDS := by
          norm_num [PROBE_BACKOFF_BASE_SECONDS]
        exact mul_le_mul_of_nonneg_left h2 hbase
      · exact min_le_right _ _

/-- Witness for C2 at a concrete input: a one-device snapshot, fresh backoff
state, first failure (delay 5) and success both exercised. -/
theorem claim_c2_witness :
    (get_device_path "A" [("A", ⟨"/dev0", "A", none, none, false, true, true, none, none⟩)] ≠
        none) ∧
      (1 : Nat) ≤ 2 ∧
      ((((verify_connected_state (fun _ => none) false true).result = false →
        (connect_device [("A", ⟨"/dev0", "A", none, none, false, true, true, none, none⟩)]
              "A" true (fun _ => none) false ⟨fun _ => none, fun _ => none⟩ 100).backoff.failed_connection_attempts
            "A" = some ((((fun _ => none) : String → Option Nat) "A").getD 0 + 1) ∧
          (connect_device [("A", ⟨"/dev0", "A", none, none, false, true, true, none, none⟩)]
              "A" true (fun _ => none) false ⟨fun _ => none, fun _ => none⟩ 100).backoff.next_probe_allowed_at
              "A" =
            some (100 + min
              (PROBE_BACKOFF_BASE_SECONDS *
                2 ^ ((((fun _ => none) : String → Option Nat) "A").getD 0 + 1 - 1))
              PROBE_BACKOFF_MAX_SECONDS)) ∧
      ((verify_connected_state (fun _ => none) false true).result = true →
        (connect_device [("A", ⟨"/dev0", "A", none, none, false, true, true, none, none⟩)]
              "A" true (fun _ => none) false ⟨fun _ => none, fun _ => none⟩ 100).backoff.failed_connection_attempts
            "A" = none ∧
          (connect_device [("A", ⟨"/dev0", "A", none, none, false, true, true, none, none⟩)]
              "A" true (fun _ => none) false ⟨fun _ => none, fun _ => none⟩ 100).backoff.next_probe_allowed_at
            "A" = none)) ∧
      probeBackoffDelay 1 ≤ probeBackoffDelay 2 ∧
      probeBackoffDelay 1 ≤ PROBE_BACKOFF_MAX_SECONDS) :=
  ⟨by decide, by norm_num,
    claim_c2_backoff_failure_and_reset
      [("A", ⟨"/dev0", "A", none, none, false, true, true, none, none⟩)] "A" true
      (fun _ => none) false ⟨fun _ => none, fun _ => none⟩ 100 1 2 (by decide)
      (by norm_num)⟩

/-- C9: when the address has no record (hence no object path) in the
snapshot, connect_device returns false and attempts neither the D-Bus
connect path nor the bluetoothctl fallback. -/
theorem claim_c9_no_path_fails_fast (snapshot : Snapshot) (mac : String)
    (dbusOk : Bool) (reads : Nat → Option Bool) (fallbackConnected : Bool)
    (st : ProbeBackoffState) (now : ℚ)
    (habsent : snapshotGet snapshot (pyUpper mac) = none) :
    (connect_device snapshot mac dbusOk reads fallbackConnected st now).result = false ∧
      (connect_device snapshot mac dbusOk reads fallbackConnected st now).dbusConnectAttempted =
        false ∧
      (connect_device snapshot mac dbusOk reads fallbackConnected st now).btctlConnectAttempted =
        false := by
  have hp : get_device_path mac snapshot = none := by
    simp [get_device_path, habsent]
  simp [connect_device, hp]

/-- Witness for C9: the empty snapshot has no record for any address. -/
theorem claim_c9_witness :
    snapshotGet ([] : Snapshot) (pyUpper "A") = none ∧
      (connect_device [] "A" true (fun _ => none) false ⟨fun _ => none, fun _ => none⟩
          0).result = false ∧
      (connect_device [] "A" true (fun _ => none) false ⟨fun _ => none, fun _ => none⟩
          0).dbusConnectAttempted = false ∧
      (connect_device [] "A" true (fun _ => none) false ⟨fun _ => none, fun _ => none⟩
          0).btctlConnectAttempted = false :=
  ⟨rfl,
    claim_c9_no_path_fails_fast [] "A" true (fun _ => none) false
      ⟨fun _ => none, fun _ => none⟩ 0 rfl⟩

/-- A device with no recorded first-seen timestamp is never approved for
registration by should_register_device. -/
theorem should_register_device_fst_none (firstSeen : String → Option ℚ)
    (mac : String) (info : DeviceInfo) (now : ℚ) (hfs : firstSeen mac = none) :
    (should_register_device firstSeen mac info now).1 = false := by
  cases hA : (info.paired || info.connected || info.trusted) <;>
    cases hB : (info.connected || info.rssi.isSome || info.tx_power.isSome) <;>
      simp [should_register_device, hA, hB, hfs]

/-- With a recorded first-seen timestamp, should_register_device approves
exactly when the eligibility gates hold and the debounce window elapsed. -/
theorem should_register_device_fst_some (firstSeen : String → Option ℚ)
    (mac : String) (info : DeviceInfo) (now t : ℚ)
    (hfs : firstSeen mac = some t) :
    ((should_register_device firstSeen mac info now).1 = true ↔
      ((info.paired || info.connected || info.trusted) = true ∧
        (info.connected || info.rssi.isSome || info.tx_power.isSome) = true ∧
        FIRST_SEEN_DEBOUNCE_SECONDS ≤ now - t)) := by
  unfold should_register_device
  rw [hfs]
  cases hA : (info.paired || info.connected || info.trusted) <;>
    cases hB : (info.connected || info.rssi.isSome || info.tx_power.isSome) <;>
      simp [hA, hB]
  by_cases hlt : now - t < FIRST_SEEN_DEBOUNCE_SECONDS
  · simp [hlt, not_le.mpr hlt]
  · simp [hlt, not_lt.mp hlt]

/-- The registration decision depends on the first-seen map only through
the entry for the device's own address. -/
theorem should_register_device_fst_congr (fs fs' : String → Option ℚ)
    (mac : String) (info : DeviceInfo) (now : ℚ) (h : fs mac = fs' mac) :
    (should_register_device fs mac info now).1 =
      (should_register_device fs' mac info now).1 := by
  unfold should_register_device
  rw [h]
  cases h1 : (info.paired || info.connected || info.trusted) <;>
    cases h2 : (info.connected || info.rssi.isSome || info.tx_power.isSome) <;>
      rcases hfs : fs' mac with _ | t <;>
        first
          | (by_cases hlt : now - t < FIRST_SEEN_DEBOUNCE_SECONDS <;>
              simp [h1, h2, hfs, hlt])
          | simp [h1, h2, hfs]

/-- should_register_device never changes first-seen entries of other
addresses. -/
theorem should_register_device_snd_ne (firstSeen : String → Option ℚ)
    (mac m : String) (info : DeviceInfo) (now : ℚ) (h : m ≠ mac) :
    (should_register_device firstSeen mac info now).2 m = firstSeen m := by
  cases hA : (info.paired || info.connected || info.trusted) <;>
    cases hB : (info.connected || info.rssi.isSome || info.tx_power.isSome) <;>
      rcases hfs : firstSeen mac with _ | t <;>
        simp [should_register_device, hA, hB, hfs, apply_ite,
          Function.update_noteq h]

/-- The first-seen entry for the device's own address after
should_register_device: recorded at `now` on an eligible first observation,
otherwise unchanged. -/
theorem should_register_device_snd_mac (firstSeen : String → Option ℚ)
    (mac : String) (info : DeviceInfo) (now : ℚ) :
    (should_register_device firstSeen mac info now).2 mac =
      (match firstSeen mac with
        | none =>
          if (info.paired || info.connected || info.trusted) &&
              (info.connected || info.rssi.isSome || info.tx_power.isSome) then
            some now
          else none
        | some t => some t) := by
  cases hA : (info.paired || info.connected || info.trusted) <;>
    cases hB : (info.connected || info.rssi.isSome || info.tx_power.isSome) <;>
      rcases hfs : firstSeen mac with _ | t <;>
        simp [should_register_device, hA, hB, hfs, apply_ite,
          Function.update_same]

/-- candidates_go leaves first-seen entries of unprocessed addresses
untouched. -/
theorem candidates_go_snd_ne (snapshot : Snapshot) (connected_set : List String)
    (now : ℚ) :
    ∀ (macs : List String) (firstSeen : String → Option ℚ) (m : String),
      m ∉ macs →
      (candidates_go snapshot connected_set now macs firstSeen).2 m = firstSeen m := by
  intro macs
  induction macs with
  | nil => intro fs m _; rfl
  | cons mac rest ih =>
    intro fs m hm
    have hne : m ≠ mac := fun h => hm (h ▸ List.mem_cons_self mac rest)
    have hrest : m ∉ rest := fun h => hm (List.mem_cons_of_mem _ h)
    by_cases hc : mac ∈ connected_set
    · simpa [candidates_go, hc] using ih fs m hrest
    · rcases hg : snapshotGet snapshot mac with _ | info
      · simpa [candidates_go, hc, hg] using ih fs m hrest
      · simp only [candidates_go, hc, hg, ite_false]
        rw [ih _ m hrest, should_register_device_snd_ne _ _ _ _ _ hne]

/-- Soundness of candidates_go: every emitted candidate was in the
processed in-range list, is not connected, carries its snapshot record,
and passed the registration decision evaluated on the initial first-seen
map. -/
theorem candidates_go_mem_sound (snapshot : Snapshot) (connected_set : List String)
    (now : ℚ) :
    ∀ (macs : List String) (firstSeen : String → Option ℚ) (m : String)
      (i : DeviceInfo),
      macs.Nodup →
      (m, i) ∈ (candidates_go snapshot connected_set now macs firstSeen).1 →
      m ∈ macs ∧ m ∉ connected_set ∧ snapshotGet snapshot m = some i ∧
        (should_register_device firstSeen m i now).1 = true := by
  intro macs
  induction macs with
  | nil => intro fs m i _ hm; simp [candidates_go] at hm
  | cons mac rest ih =>
    intro fs m i hnd hm
    have hnd' : rest.Nodup := hnd.of_cons
    have hmacrest : mac ∉ rest := (List.nodup_cons.mp hnd).1
    by_cases hc : mac ∈ connected_set
    · simp only [candidates_go, hc, if_pos, ite_true] at hm
      obtain ⟨h1, h2, h3, h4⟩ := ih fs m i hnd' hm
      exact ⟨List.mem_cons_of_mem _ h1, h2, h3, h4⟩
    · rcases hg : snapshotGet snapshot mac with _ | info
      · simp only [candidates_go, hc, hg, ite_false] at hm
        obtain ⟨h1, h2, h3, h4⟩ := ih fs m i hnd' hm
        exact ⟨List.mem_cons_of_mem _ h1, h2, h3, h4⟩
      · simp only [candidates_go, hc, hg, ite_false] at hm
        set sr := should_register_device fs mac info now with hsr
        by_cases hfst : sr.1
        · rw [if_pos hfst] at hm
          rcases List.mem_cons.mp hm with hhead | htail
          · obtain ⟨hm1, hm2⟩ := Prod.mk.injEq .. ▸ hhead
            subst hm1; subst hm2
            exact ⟨List.mem_cons_self _ _, hc, hg, hfst⟩
          · obtain ⟨h1, h2, h3, h4⟩ := ih sr.2 m i hnd' htail
            have hne : m ≠ mac := fun h => hmacrest (h ▸ h1)
            have hval : sr.2 m = fs m :=
              should_register_device_snd_ne fs mac m info now hne
            refine ⟨List.mem_cons_of_mem _ h1, h2, h3, ?_⟩
            rwa [should_register_device_fst_congr sr.2 fs m i now hval] at h4
        · rw [if_neg hfst] at hm
          obtain ⟨h1, h2, h3, h4⟩ := ih sr.2 m i hnd' hm
          have hne : m ≠ mac := fun h => hmacrest (h ▸ h1)
          have hval : sr.2 m = fs m :=
            should_register_device_snd_ne fs mac m info now hne
          refine ⟨List.mem_cons_of_mem _ h1, h2, h3, ?_⟩
          rwa [should_register_device_fst_congr sr.2 fs m i now hval] at h4

/-- Completeness of candidates_go: an in-range, unconnected address whose
snapshot record passes the registration decision on the initial first-seen
map is emitted as a candidate. -/
theorem candidates_go_mem_complete (snapshot : Snapshot) (connected_set : List String)
    (now : ℚ) :
    ∀ (macs : List String) (firstSeen : String → Option ℚ) (m : String)
      (i : DeviceInfo),
      macs.Nodup → m ∈ macs → m ∉ connected_set →
      snapshotGet snapshot m = some i →
      (should_register_device firstSeen m i now).1 = true →
      (m, i) ∈ (candidates_go snapshot connected_set now macs firstSeen).1 := by
  intro macs
  induction macs with
  | nil => intro fs m i _ hm; simp at hm
  | cons mac rest ih =>
    intro fs m i hnd hm hc hg hfst
    have hnd' : rest.Nodup := hnd.of_cons
    have hmacrest : mac ∉ rest := (List.nodup_cons.mp hnd).1
    rcases List.mem_cons.mp hm with hhead | htail
    · subst hhead
      simp only [candidates_go, hc, hg, ite_false]
      rw [if_pos hfst]
      exact List.mem_cons_self _ _
    · have hne : m ≠ mac := fun h => hmacrest (h ▸ htail)
      by_cases hcmac : mac ∈ connected_set
      · simp only [candidates_go, hcmac, ite_true]
        exact ih fs m i hnd' htail hc hg hfst
      · rcases hgmac : snapshotGet snapshot mac with _ | info
        · simp only [candidates_go, hcmac, hgmac, ite_false]
          exact ih fs m i hnd' htail hc hg hfst
        · simp only [candidates_go, hcmac, hgmac, ite_false]
          set sr := should_register_device fs mac info now with hsr
          have hval : sr.2 m = fs m :=
            should_register_device_snd_ne fs mac m info now hne
          have hfst' : (should_register_device sr.2 m i now).1 = true := by
            rw [should_register_device_fst_congr sr.2 fs m i now hval]
            exact hfst
          have hmem := ih sr.2 m i hnd' htail hc hg hfst'
          by_cases hb : sr.1
          · rw [if_pos hb]; exact List.mem_cons_of_mem _ hmem
          · rw [if_neg hb]; exact hmem

/-- A first eligible observation makes candidates_go record `now` as the
address's first-seen timestamp. -/
theorem candidates_go_records_first_seen (snapshot : Snapshot)
    (connected_set : List String) (now : ℚ) :
    ∀ (macs : List String) (firstSeen : String → Option ℚ) (m : String)
      (i : DeviceInfo),
      macs.Nodup → m ∈ macs → m ∉ connected_set →
      snapshotGet snapshot m = some i → firstSeen m = none →
      (i.paired || i.connected || i.trusted) = true →
      (i.connected || i.rssi.isSome || i.tx_power.isSome) = true →
      (candidates_go snapshot connected_set now macs firstSeen).2 m = some now := by
  intro macs
  induction macs with
  | nil => intro fs m i _ hm; simp at hm
  | cons mac rest ih =>
    intro fs m i hnd hm hc hg hfs hA hB
    have hnd' : rest.Nodup := hnd.of_cons
    have hmacrest : mac ∉ rest := (List.nodup_cons.mp hnd).1
    rcases List.mem_cons.mp hm with hhead | htail
    · subst hhead
      simp only [candidates_go, hc, hg, ite_false]
      have hsnd : (should_register_device fs m i now).2 m = some now := by
        rw [should_register_device_snd_mac, hfs]
        simp [hA, hB]
      rw [candidates_go_snd_ne snapshot connected_set now rest _ m hmacrest, hsnd]
    · have hne : m ≠ mac := fun h => hmacrest (h ▸ htail)
      by_cases hcmac : mac ∈ connected_set
      · simp only [candidates_go, hcmac, ite_true]
        exact ih fs m i hnd' htail hc hg hfs hA hB
      · rcases hgmac : snapshotGet snapshot mac with _ | info
        · simp only [candidates_go, hcmac, hgmac, ite_false]
          exact ih fs m i hnd' htail hc hg hfs hA hB
        · simp only [candidates_go, hcmac, hgmac, ite_false]
          set sr := should_register_device fs mac info now with hsr
          have hval : sr.2 m = none := by
            rw [hsr, should_register_device_snd_ne fs mac m info now hne]
            exact hfs
          exact ih sr.2 m i hnd' htail hc hg hval hA hB

/-- Membership in the registration-call list of the in-range loop:
exactly the candidates with no store record. -/
theorem in_range_go_calls_iff (cache : List KnownDevice) (registerOk : String → Bool) :
    ∀ (cands : List (String × DeviceInfo)) (firstSeen : String → Option ℚ)
      (failed : List String) (m : String),
      m ∈ (in_range_registration_go cache registerOk cands firstSeen failed).calls ↔
        (∃ i, (m, i) ∈ cands) ∧ devicesByMacGet cache m = none := by
  intro cands
  induction cands with
  | nil => intro fs failed m; simp [in_range_registration_go]
  | cons p rest ih =>
    intro fs failed m
    obtain ⟨mac, info⟩ := p
    rcases hl : devicesByMacGet cache mac with _ | d
    · by_cases hro : registerOk mac
      · by_cases hm : m = mac
        · subst hm
          simp [in_range_registration_go, hl, hro, ih]
        · simp [in_range_registration_go, hl, hro, ih, hm]
      · by_cases hm : m = mac
        · subst hm
          simp [in_range_registration_go, hl, hro, ih]
        · simp [in_range_registration_go, hl, hro, ih, hm]
    · by_cases hm : m = mac
      · subst hm
        simp [in_range_registration_go, hl, ih]
      · simp [in_range_registration_go, hl, ih, hm]

/-- The in-range registration loop leaves first-seen entries of addresses
outside the candidate list untouched. -/
theorem in_range_go_firstSeen_ne (cache : List KnownDevice)
    (registerOk : String → Bool) :
    ∀ (cands : List (String × DeviceInfo)) (firstSeen : String → Option ℚ)
      (failed : List String) (m : String),
      m ∉ cands.map Prod.fst →
      (in_range_registration_go cache registerOk cands firstSeen failed).firstSeen m =
        firstSeen m := by
  intro cands
  induction cands with
  | nil => intro fs failed m _; rfl
  | cons p rest ih =>
    intro fs failed m hm
    obtain ⟨mac, info⟩ := p
    have hne : m ≠ mac := fun h => hm (by simp [h])
    have hrest : m ∉ rest.map Prod.fst := fun h => hm (by simp [h])
    rcases hl : devicesByMacGet cache mac with _ | d
    · cases hro : registerOk mac
      · simp only [in_range_registration_go, hl, hro, Bool.false_eq_true,
          ite_false]
        rw [ih _ _ m hrest]
      · simp only [in_range_registration_go, hl, hro, ite_true]
        rw [ih _ _ m hrest, Function.update_noteq hne]
    · simp only [in_range_registration_go, hl]
      rw [ih _ _ m hrest, Function.update_noteq hne]

/-- An address with a snapshot record carrying a presence signal is in the
in-range list. -/
theorem mem_get_devices_in_range (snapshot : Snapshot) (lastRefresh now : ℚ)
    (mac : String) (info : DeviceInfo)
    (hget : snapshotGet snapshot mac = some info)
    (hsig : device_has_presence_signal info (is_rssi_fresh lastRefresh now) = true) :
    mac ∈ get_devices_in_range snapshot lastRefresh now := by
  unfold snapshotGet at hget
  rcases hfind : snapshot.find? (fun p => p.1 = mac) with _ | p
  · rw [hfind] at hget; cases hget
  · rw [hfind] at hget
    have hmem : p ∈ snapshot := List.mem_of_find?_eq_some hfind
    have hkey : p.1 = mac := by
      have := List.find?_some hfind
      simpa using this
    have hinfo : p.2 = info := Option.some.inj hget
    unfold get_devices_in_range
    refine List.mem_map.mpr ⟨p, ?_, hkey⟩
    refine List.mem_filter.mpr ⟨hmem, ?_⟩
    rw [hinfo]
    exact hsig

/-- With unique snapshot keys, the in-range list has no duplicates. -/
theorem get_devices_in_range_nodup (snapshot : Snapshot) (lastRefresh now : ℚ)
    (h : (snapshot.map Prod.fst).Nodup) :
    (get_devices_in_range snapshot lastRefresh now).Nodup := by
  unfold get_devices_in_range
  exact h.sublist ((List.filter_sublist snapshot).map Prod.fst)

/-- The probed addresses form a sublist of the ordered candidate list. -/
theorem probeLoop_map_fst_sublist (env : ProbeEnv) (budget : Option ℚ) :
    ∀ (l : List String) (i : Nat),
      ((probeLoop env budget l i).map Prod.fst).Sublist l := by
  intro l
  induction l with
  | nil => intro i; simp [probeLoop]
  | cons mac rest ih =>
    intro i
    unfold probeLoop
    split
    · simp
    · cases hca : env.canAttempt mac
      · simp only [hca, Bool.not_false, ite_true]
        exact (ih (i + 1)).cons mac
      · simp only [hca, Bool.not_true, Bool.false_eq_true, ite_false,
          List.map_cons]
        exact (ih (i + 1)).cons₂ mac

/-- The capped fair pick is sorted by oldest last attempt first. -/
theorem pick_reconnect_candidates_sorted (la : String → Option ℚ)
    (cs : List String) (n : Nat) (hn : n ≠ 0) :
    (pick_reconnect_candidates la cs n).Pairwise
      (fun a b => lastAttemptKey la a ≤ lastAttemptKey la b) := by
  unfold pick_reconnect_candidates
  rw [if_neg hn]
  refine List.Pairwise.sublist (List.take_sublist _ _) ?_
  have hs : (cs.mergeSort (fun a b =>
      decide (lastAttemptKey la a ≤ lastAttemptKey la b))).Pairwise
      (fun a b =>
        decide (lastAttemptKey la a ≤ lastAttemptKey la b) = true) :=
    List.sorted_mergeSort
      (fun a b c hab hbc => by
        simpa using le_trans (by simpa using hab) (by simpa using hbc))
      (fun a b => by
        simpa using le_total (lastAttemptKey la a) (lastAttemptKey la b))
      cs
  exact hs.imp (fun h => by simpa using h)

/-- The capped fair pick returns at most `n` addresses. -/
theorem pick_reconnect_candidates_length (la : String → Option ℚ)
    (cs : List String) (n : Nat) (hn : n ≠ 0) :
    (pick_reconnect_candidates la cs n).length ≤ n := by
  unfold pick_reconnect_candidates
  rw [if_neg hn]
  exact le_trans (le_of_eq (List.length_take _ _)) (min_le_left _ _)

/-- The capped fair pick only returns candidates. -/
theorem pick_reconnect_candidates_subset (la : String → Option ℚ)
    (cs : List String) (n : Nat) (m : String)
    (hm : m ∈ pick_reconnect_candidates la cs n) : m ∈ cs := by
  unfold pick_reconnect_candidates at hm
  split at hm
  · exact hm
  · exact List.mem_mergeSort.mp (List.take_subset _ _ hm)

/-- C8: probe_devices never attempts an already-connected (normalized)
address, attempts at most the per-cycle maximum of candidates, and the
attempted addresses are ordered oldest-last-attempt-first; with real
(positive) attempt timestamps, never-attempted addresses come first. -/
theorem claim_c8_probe_selection (env : ProbeEnv)
    (mac_addresses connected_macs : List String) (time_budget_seconds : Option ℚ)
    (hpos : ∀ m t, env.lastAttempts m = some t → 0 < t) :
    (∀ m ∈ (probe_devices env mac_addresses connected_macs
        time_budget_seconds).map Prod.fst,
      m ∉ connected_macs.map pyUpper) ∧
      ((probe_devices env mac_addresses connected_macs
          time_budget_seconds).map Prod.fst).length ≤ MAX_RECONNECT_PER_CYCLE ∧
      ((probe_devices env mac_addresses connected_macs
          time_budget_seconds).map Prod.fst).Pairwise
        (fun a b => lastAttemptKey env.lastAttempts a ≤
          lastAttemptKey env.lastAttempts b) ∧
      ((probe_devices env mac_addresses connected_macs
          time_budget_seconds).map Prod.fst).Pairwise
        (fun a b => env.lastAttempts b = none → env.lastAttempts a = none) := by
  have hmax : max_candidates = MAX_RECONNECT_PER_CYCLE := rfl
  have hmaxne : max_candidates ≠ 0 := by
    rw [hmax]; simp [MAX_RECONNECT_PER_CYCLE]
  have htrivial : ∀ res : List (String × Bool), res = [] →
      (∀ m ∈ res.map Prod.fst, m ∉ connected_macs.map pyUpper) ∧
        (res.map Prod.fst).length ≤ MAX_RECONNECT_PER_CYCLE ∧
        (res.map Prod.fst).Pairwise
          (fun a b => lastAttemptKey env.lastAttempts a ≤
            lastAttemptKey env.lastAttempts b) ∧
        (res.map Prod.fst).Pairwise
          (fun a b => env.lastAttempts b = none → env.lastAttempts a = none) := by
    rintro _ rfl
    simp
  unfold probe_devices
  split
  · exact htrivial [] rfl
  · split
    · exact htrivial [] rfl
    · split
      · exact htrivial [] rfl
      · have hsub : ((probeLoop env time_budget_seconds
            (ordered_candidates env mac_addresses connected_macs) 0).map
              Prod.fst).Sublist
            (ordered_candidates env mac_addresses connected_macs) :=
          probeLoop_map_fst_sublist env time_budget_seconds _ 0
        have hsorted : ((probeLoop env time_budget_seconds
            (ordered_candidates env mac_addresses connected_macs) 0).map
              Prod.fst).Pairwise
            (fun a b => lastAttemptKey env.lastAttempts a ≤
              lastAttemptKey env.lastAttempts b) :=
          List.Pairwise.sublist hsub
            (pick_reconnect_candidates_sorted env.lastAttempts _ _ hmaxne)
        refine ⟨?_, ?_, hsorted, ?_⟩
        · intro m hm
          have hmo : m ∈ ordered_candidates env mac_addresses connected_macs :=
            hsub.subset hm
          have hmc : m ∈ candidate_set mac_addresses connected_macs :=
            pick_reconnect_candidates_subset env.lastAttempts _ _ m hmo
          have := List.of_mem_filter hmc
          exact of_decide_eq_true this
        · calc ((probeLoop env time_budget_seconds
              (ordered_candidates env mac_addresses connected_macs) 0).map
                Prod.fst).length
              ≤ (ordered_candidates env mac_addresses connected_macs).length :=
                hsub.length_le
            _ ≤ max_candidates :=
                pick_reconnect_candidates_length env.lastAttempts _ _ hmaxne
            _ = MAX_RECONNECT_PER_CYCLE := hmax
        · refine hsorted.imp ?_
          intro a b hle hbnone
          rcases hanone : env.lastAttempts a with _ | t
          · rfl
          · have hta : 0 < t := hpos a t hanone
            have hka : lastAttemptKey env.lastAttempts a = t := by
              simp [lastAttemptKey, hanone]
            have hkb : lastAttemptKey env.lastAttempts b = 0 := by
              simp [lastAttemptKey, hbnone]
            rw [hka, hkb] at hle
            exact absurd (lt_of_lt_of_le hta hle) (lt_irrefl 0)

/-- Witness for C8: two fresh candidates, one already connected, no budget;
the connected one is excluded and the rest probed in fair order. -/
theorem claim_c8_witness :
    (∀ m t, (((fun _ => none) : String → Option ℚ) m = some t → (0:ℚ) < t)) ∧
      ((∀ m ∈ (probe_devices ⟨fun _ => none, fun _ => true, fun _ => true,
          fun _ => 0⟩ ["a", "b"] ["b"] none).map Prod.fst,
        m ∉ (["b"] : List String).map pyUpper) ∧
      ((probe_devices ⟨fun _ => none, fun _ => true, fun _ => true,
          fun _ => 0⟩ ["a", "b"] ["b"] none).map Prod.fst).length ≤
        MAX_RECONNECT_PER_CYCLE ∧
      ((probe_devices ⟨fun _ => none, fun _ => true, fun _ => true,
          fun _ => 0⟩ ["a", "b"] ["b"] none).map Prod.fst).Pairwise
        (fun a b => lastAttemptKey (fun _ => none) a ≤
          lastAttemptKey (fun _ => none) b) ∧
      ((probe_devices ⟨fun _ => none, fun _ => true, fun _ => true,
          fun _ => 0⟩ ["a", "b"] ["b"] none).map Prod.fst).Pairwise
        (fun a b => ((fun _ => none) : String → Option ℚ) b = none →
          ((fun _ => none) : String → Option ℚ) a = none)) :=
  ⟨fun _ _ h => Option.noConfusion h,
    claim_c8_probe_selection ⟨fun _ => none, fun _ => true, fun _ => true,
      fun _ => 0⟩ ["a", "b"] ["b"] none (fun _ _ h => Option.noConfusion h)⟩

/-- C3: in the in-range registration path, a first observation of an
address never produces a registration call and (when the address is
eligible) only records `now` as its first-seen timestamp; every
registration call is for an address first seen at least the debounce
window (10 s by default) before this cycle; and an eligible, unknown,
in-range address whose recorded first observation is at least the window
old is registered in this cycle. -/
theorem claim_c3_debounced_registration (snapshot : Snapshot)
    (connected_set : List String) (cache : List KnownDevice)
    (firstSeen : String → Option ℚ) (failed : List String)
    (registerOk : String → Bool) (lastRefresh now : ℚ) (mac : String)
    (hnd : (snapshot.map Prod.fst).Nodup) :
    (firstSeen mac = none →
      mac ∉ (cycle_in_range_registration snapshot connected_set cache firstSeen
        failed registerOk lastRefresh now).calls) ∧
      (mac ∈ (cycle_in_range_registration snapshot connected_set cache firstSeen
          failed registerOk lastRefresh now).calls →
        ∃ t, firstSeen mac = some t ∧ FIRST_SEEN_DEBOUNCE_SECONDS ≤ now - t) ∧
      (∀ info, firstSeen mac = none → snapshotGet snapshot mac = some info →
        mac ∉ connected_set →
        device_has_presence_signal info (is_rssi_fresh lastRefresh now) = true →
        (info.paired || info.connected || info.trusted) = true →
        (info.connected || info.rssi.isSome || info.tx_power.isSome) = true →
        (cycle_in_range_registration snapshot connected_set cache firstSeen
          failed registerOk lastRefresh now).firstSeen mac = some now) ∧
      (∀ info t, firstSeen mac = some t →
        FIRST_SEEN_DEBOUNCE_SECONDS ≤ now - t →
        snapshotGet snapshot mac = some info → mac ∉ connected_set →
        device_has_presence_signal info (is_rssi_fresh lastRefresh now) = true →
        (info.paired || info.connected || info.trusted) = true →
        (info.connected || info.rssi.isSome || info.tx_power.isSome) = true →
        devicesByMacGet cache mac = none →
        mac ∈ (cycle_in_range_registration snapshot connected_set cache firstSeen
          failed registerOk lastRefresh now).calls) := by
  have hinRnd : (get_devices_in_range snapshot lastRefresh now).Nodup :=
    get_devices_in_range_nodup snapshot lastRefresh now hnd
  set inR := get_devices_in_range snapshot lastRefresh now with hinR
  set fc := candidates_go snapshot connected_set now inR firstSeen with hfcdef
  have hcycle : cycle_in_range_registration snapshot connected_set cache firstSeen
      failed registerOk lastRefresh now =
      in_range_registration_go cache registerOk fc.1 fc.2 failed := rfl
  have hmain : ∀ m,
      m ∈ (in_range_registration_go cache registerOk fc.1 fc.2 failed).calls →
      ∃ t, firstSeen m = some t ∧ FIRST_SEEN_DEBOUNCE_SECONDS ≤ now - t := by
    intro m hm
    obtain ⟨⟨i, hi⟩, hcache⟩ :=
      (in_range_go_calls_iff cache registerOk fc.1 fc.2 failed m).mp hm
    obtain ⟨h1, h2, h3, h4⟩ :=
      candidates_go_mem_sound snapshot connected_set now inR firstSeen m i hinRnd hi
    rcases hfs : firstSeen m with _ | t
    · rw [should_register_device_fst_none firstSeen m i now hfs] at h4
      cases h4
    · obtain ⟨_, _, hdeb⟩ :=
        (should_register_device_fst_some firstSeen m i now t hfs).mp h4
      exact ⟨t, rfl, hdeb⟩
  rw [hcycle]
  refine ⟨?_, hmain mac, ?_, ?_⟩
  · intro hfs hm
    obtain ⟨t, ht, _⟩ := hmain mac hm
    rw [hfs] at ht
    cases ht
  · intro info hfs hget hc hsig hA hB
    have hmem : mac ∈ inR :=
      mem_get_devices_in_range snapshot lastRefresh now mac info hget hsig
    have hfc2 : fc.2 mac = some now :=
      candidates_go_records_first_seen snapshot connected_set now inR firstSeen
        mac info hinRnd hmem hc hget hfs hA hB
    have hnotc : mac ∉ fc.1.map Prod.fst := by
      intro hmm
      obtain ⟨p, hp, hpk⟩ := List.mem_map.mp hmm
      obtain ⟨h1, h2, h3, h4⟩ :=
        candidates_go_mem_sound snapshot connected_set now inR firstSeen p.1 p.2
          hinRnd hp
      rw [hpk] at h4
      rw [should_register_device_fst_none firstSeen mac p.2 now hfs] at h4
      cases h4
    rw [in_range_go_firstSeen_ne cache registerOk fc.1 fc.2 failed mac hnotc, hfc2]
  · intro info t hfs hdeb hget hc hsig hA hB hcache
    have hmem : mac ∈ inR :=
      mem_get_devices_in_range snapshot lastRefresh now mac info hget hsig
    have hfst : (should_register_device firstSeen mac info now).1 = true :=
      (should_register_device_fst_some firstSeen mac info now t hfs).mpr
        ⟨hA, hB, hdeb⟩
    have hcand : (mac, info) ∈ fc.1 :=
      candidates_go_mem_complete snapshot connected_set now inR firstSeen mac info
        hinRnd hmem hc hget hfst
    exact (in_range_go_calls_iff cache registerOk fc.1 fc.2 failed mac).mpr
      ⟨⟨info, hcand⟩, hcache⟩

/-- Witness for C3: a snapshot with one paired device "A" carrying a fresh
RSSI reading, never seen before, with an empty store. -/
theorem claim_c3_witness :
    ((([("A", (⟨"/d", "A", none, none, false, true, false, some (-40), none⟩ :
          DeviceInfo))] : Snapshot).map Prod.fst).Nodup) ∧
      ((((fun _ => none) : String → Option ℚ) "A" = none →
        "A" ∉ (cycle_in_range_registration
          [("A", ⟨"/d", "A", none, none, false, true, false, some (-40), none⟩)]
          [] [] (fun _ => none) [] (fun _ => true) 0 0).calls) ∧
      ("A" ∈ (cycle_in_range_registration
          [("A", ⟨"/d", "A", none, none, false, true, false, some (-40), none⟩)]
          [] [] (fun _ => none) [] (fun _ => true) 0 0).calls →
        ∃ t, ((fun _ => none) : String → Option ℚ) "A" = some t ∧
          FIRST_SEEN_DEBOUNCE_SECONDS ≤ 0 - t) ∧
      (∀ info, ((fun _ => none) : String → Option ℚ) "A" = none →
        snapshotGet
          [("A", ⟨"/d", "A", none, none, false, true, false, some (-40), none⟩)]
          "A" = some info →
        "A" ∉ ([] : List String) →
        device_has_presence_signal info (is_rssi_fresh 0 0) = true →
        (info.paired || info.connected || info.trusted) = true →
        (info.connected || info.rssi.isSome || info.tx_power.isSome) = true →
        (cycle_in_range_registration
          [("A", ⟨"/d", "A", none, none, false, true, false, some (-40), none⟩)]
          [] [] (fun _ => none) [] (fun _ => true) 0 0).firstSeen "A" = some 0) ∧
      (∀ info t, ((fun _ => none) : String → Option ℚ) "A" = some t →
        FIRST_SEEN_DEBOUNCE_SECONDS ≤ 0 - t →
        snapshotGet
          [("A", ⟨"/d", "A", none, none, false, true, false, some (-40), none⟩)]
          "A" = some info →
        "A" ∉ ([] : List String) →
        device_has_presence_signal info (is_rssi_fresh 0 0) = true →
        (info.paired || info.connected || info.trusted) = true →
        (info.connected || info.rssi.isSome || info.tx_power.isSome) = true →
        devicesByMacGet [] "A" = none →
        "A" ∈ (cycle_in_range_registration
          [("A", ⟨"/d", "A", none, none, false, true, false, some (-40), none⟩)]
          [] [] (fun _ => none) [] (fun _ => true) 0 0).calls)) :=
  ⟨by decide,
    claim_c3_debounced_registration
      [("A", ⟨"/d", "A", none, none, false, true, false, some (-40), none⟩)]
      [] [] (fun _ => none) [] (fun _ => true) 0 0 "A" (by decide)⟩

/-- C4: in the known-device status loop, the updateDeviceStatus mutation is
issued for a record exactly when the status derived from the presence set
differs from the record's last-known status; unchanged records generate no
store call. -/
theorem claim_c4_update_iff_status_changed (devices : List KnownDevice)
    (present_set : List String) (cache : List KnownDevice)
    (mutationOk : String → Bool) (prev : String → Option String) :
    (check_status_pass present_set cache mutationOk devices prev).events =
      devices.filterMap (fun d =>
        d.macTruthy.map (fun mac =>
          (mac,
            decide ((if mac ∈ present_set then "present" else "absent") ≠
              d.status.getD "unknown")))) := by
  induction devices generalizing prev with
  | nil => simp [check_status_pass]
  | cons d rest ih =>
    rcases hmt : d.macTruthy with _ | mac
    · simp [check_status_pass, hmt, ih]
    · by_cases hstat :
        ((if mac ∈ present_set then "present" else "absent") : String) =
          d.status.getD "unknown"
      · have hstat' := hstat.symm
        simp [check_status_pass, hmt, update_device_status, ih, hstat']
      · rcases hmo : mutationOk mac with _ | _ <;>
          simp [check_status_pass, hmt, update_device_status, hmo, ih, hstat,
            Ne.symm hstat]

/-- C5: every address whose pairing the stale cleanup removes is paired in
the snapshot, not currently connected in the snapshot, and absent from the
store's known set. -/
theorem claim_c5_cleanup_never_removes_connected (convex_devices : List KnownDevice)
    (snapshot : Snapshot) (m : String)
    (hm : m ∈ cleanup_stale_bluetooth_pairings convex_devices snapshot) :
    m ∈ get_paired_devices snapshot ∧
      m ∉ get_all_connected_devices snapshot ∧
      m ∉ convex_devices.filterMap KnownDevice.macTruthy := by
  cases convex_devices with
  | nil => simp [cleanup_stale_bluetooth_pairings] at hm
  | cons d ds =>
    simp [cleanup_stale_bluetooth_pairings] at hm
    exact ⟨hm.1, hm.2.2, by simpa using hm.2.1⟩

/-- C10: `get_known_devices` maps every failed store call (timeout, other
error, or short-circuit while the breaker is open) to the empty list, and
stale-pairing cleanup removes nothing when the known-device list is empty. -/
theorem claim_c10_unreachable_store_no_mass_unpair (snapshot : Snapshot)
    (st : ConvexState) (now nowAfter : ℚ)
    (outcome : CallOutcome (List KnownDevice))
    (hfail : outcome = .timeout ∨ outcome = .failure ∨ now < st.circuitOpenUntil) :
    (get_known_devices st now nowAfter outcome).1 = [] ∧
      cleanup_stale_bluetooth_pairings (get_known_devices st now nowAfter outcome).1
        snapshot = [] ∧
      cleanup_stale_bluetooth_pairings [] snapshot = [] := by
  have hempty : cleanup_stale_bluetooth_pairings [] snapshot = [] := by
    simp [cleanup_stale_bluetooth_pairings]
  have hret : (get_known_devices st now nowAfter outcome).1 = [] := by
    rcases hfail with h | h | h
    · subst h
      by_cases hc : now < st.circuitOpenUntil
      · simp [get_known_devices, submit_convex_call, hc]
      · by_cases hmax :
          MAX_CONVEX_CONSECUTIVE_TIMEOUTS ≤ st.consecutiveTimeouts + 1 <;>
          simp [get_known_devices, submit_convex_call, hc, hmax]
    · subst h
      by_cases hc : now < st.circuitOpenUntil <;>
        simp [get_known_devices, submit_convex_call, hc]
    · simp [get_known_devices, submit_convex_call, h]
  exact ⟨hret, hret ▸ hempty, hempty⟩

/-- Witness for C10: a store timeout with a paired, disconnected device in
the snapshot; nothing is unpaired. -/
theorem claim_c10_witness :
    ((CallOutcome.timeout (T := List KnownDevice)) = .timeout ∨
        (CallOutcome.timeout (T := List KnownDevice)) = .failure ∨
        (0 : ℚ) < (⟨0, 0⟩ : ConvexState).circuitOpenUntil) ∧
      (get_known_devices ⟨0, 0⟩ 0 1 .timeout).1 = [] ∧
        cleanup_stale_bluetooth_pairings (get_known_devices ⟨0, 0⟩ 0 1 .timeout).1
          [("B", ⟨"/dev1", "B", none, none, false, true, false, none, none⟩)] = [] ∧
        cleanup_stale_bluetooth_pairings []
          [("B", ⟨"/dev1", "B", none, none, false, true, false, none, none⟩)] = [] :=
  ⟨Or.inl rfl,
    claim_c10_unreachable_store_no_mass_unpair
      [("B", ⟨"/dev1", "B", none, none, false, true, false, none, none⟩)]
      ⟨0, 0⟩ 0 1 .timeout (Or.inl rfl)⟩

/-- Witness for C5: a paired, disconnected address "B" unknown to the store
is removed and satisfies all three conditions. -/
theorem claim_c5_witness :
    ("B" ∈ cleanup_stale_bluetooth_pairings
        [⟨some "A", none, none, false, none, none, none⟩]
        [("B", ⟨"/dev1", "B", none, none, false, true, false, none, none⟩)]) ∧
      "B" ∈ get_paired_devices
          [("B", ⟨"/dev1", "B", none, none, false, true, false, none, none⟩)] ∧
        "B" ∉ get_all_connected_devices
            [("B", ⟨"/dev1", "B", none, none, false, true, false, none, none⟩)] ∧
          "B" ∉ ([⟨some "A", none, none, false, none, none, none⟩] :
              List KnownDevice).filterMap KnownDevice.macTruthy :=
  ⟨by decide,
    claim_c5_cleanup_never_removes_connected
      [⟨some "A", none, none, false, none, none, none⟩]
      [("B", ⟨"/dev1", "B", none, none, false, true, false, none, none⟩)] "B"
      (by decide)⟩

/-- Witness for C7: third consecutive timeout at monotonic time 5 (clock reads
6 when the breaker opens) opens the circuit until 36. -/
theorem claim_c7_witness :
    (¬ (5 : ℚ) < (⟨2, 0⟩ : ConvexState).circuitOpenUntil) ∧
      ((CallOutcome.timeout (T := Nat)) = .timeout →
        (submit_convex_call (T := Nat) ⟨2, 0⟩ 5 6 .timeout).state.consecutiveTimeouts =
            2 + 1 ∧
          (MAX_CONVEX_CONSECUTIVE_TIMEOUTS ≤ 2 + 1 →
            (submit_convex_call (T := Nat) ⟨2, 0⟩ 5 6 .timeout).state.circuitOpenUntil =
              6 + CONVEX_CIRCUIT_OPEN_SECONDS) ∧
          (2 + 1 < MAX_CONVEX_CONSECUTIVE_TIMEOUTS →
            (submit_convex_call (T := Nat) ⟨2, 0⟩ 5 6 .timeout).state.circuitOpenUntil =
              0)) :=
  ⟨by norm_num,
    ((claim_c7_counter_and_opening (T := Nat) ⟨2, 0⟩ 5 6 .timeout (by norm_num)).1)⟩

end PresenceTracker
